import Mathlib

/-!
Verification development for the `supertoggle` / `timewarrior` status-bar
blocks (i3status-rust fork).  The two source files
`src/blocks/supertoggle.rs` and `src/blocks/timewarrior.rs` are embedded
shallowly: shelling out to the external process is modelled by an explicit
oracle `Exec` mapping an invocation (program + argument list) to either an
I/O error or a captured process output; the host's icon theme is an oracle
`Theme`; every block method becomes a pure function threading the block
state explicitly.
-/

set_option linter.unusedVariables false

/-- Widget health states recognised by the host (`widgets::State`). -/
inductive WState
  | idle
  | info
  | good
  | warning
  | critical
  deriving DecidableEq, Repr

/-- Errors of the block layer.  `io` models a `std::io::Error` converted into
the crate error by `?`; `blockError` models `Error::BlockError(name, msg)`;
`renderError` models a format-template rendering failure on a missing
placeholder; `iconError` models `set_icon` failing to resolve an icon id. -/
inductive Error
  | io (msg : String)
  | blockError (name : String) (msg : String)
  | renderError (placeholder : String)
  | iconError (name : String)
  deriving DecidableEq, Repr

/-- A raw I/O failure from spawning or reading a child process. -/
structure IoErr where
  msg : String
  deriving DecidableEq, Repr

/-- A child-process invocation: program name plus argument vector, as built
by `Command::new(prog).args(args)`. -/
structure Invocation where
  program : String
  args : List String
  deriving DecidableEq, Repr

/-- Captured result of a finished child process (`std::process::Output`):
exit status code plus raw stdout bytes. -/
structure ProcOutput where
  status : Nat
  stdout : List Nat
  deriving DecidableEq, Repr

/-- The operating system, abstracted: what `.output()` returns for a given
invocation. -/
abbrev Exec := Invocation → Except IoErr ProcOutput

/-- Modelled from the spec: the host's icon theme, resolving a symbolic icon
id to the icon glyph, or failing when the id is unknown (the host's
`TextWidget::set_icon` is not under `src/`). -/
abbrev Theme := String → Option String

/-- Modelled from the spec: the host-owned text widget, mutated only through
the opaque setters `set_icon`, `set_text`/`set_texts`, `set_state`
(`widgets::text::TextWidget` is not under `src/`). -/
structure TextWidget where
  icon : Option String
  full_text : String
  state : WState
  deriving DecidableEq, Repr

/-- Modelled from the spec: `set_icon` resolves the icon id through the
theme; on an unknown id it fails without mutating the widget. -/
def TextWidget.set_icon (theme : Theme) (w : TextWidget) (name : String) :
    Except Error TextWidget :=
  match theme name with
  | some ic => Except.ok { w with icon := some ic }
  | none => Except.error (Error.iconError name)

/-- Modelled from the spec: `set_text` / `set_texts` stores the rendered
text. -/
def TextWidget.set_text (w : TextWidget) (s : String) : TextWidget :=
  { w with full_text := s }

/-- Modelled from the spec: `set_state` stores the widget health state. -/
def TextWidget.set_state (w : TextWidget) (s : WState) : TextWidget :=
  { w with state := s }

/-- A formatting value (`formatting::value::Value`), reduced to its text. -/
structure Value where
  str : String
  deriving DecidableEq, Repr

/-- `Value::from_string`. -/
def Value.from_string (s : String) : Value := ⟨s⟩

/-- The name→value map of extracted fields (`HashMap<String, Value>`),
modelled as an association list. -/
abbrev Fields := List (String × Value)

/-- One segment of a compiled format template: a literal piece or a named
placeholder `\x7bname\x7d`. -/
inductive FSeg
  | lit (s : String)
  | var (name : String)
  deriving DecidableEq, Repr

/-- Modelled from the spec: a compiled format template
(`formatting::FormatTemplate` is not under `src/`). -/
abbrev FormatTemplate := List FSeg

/-- Modelled from the spec: rendering substitutes each placeholder from the
fields map and fails on a placeholder with no corresponding key. -/
def renderSegs : List FSeg → Fields → Except Error String
  | [], _ => Except.ok ("")
  | FSeg.lit s :: rest, f => (renderSegs rest f).map (fun t => s ++ t)
  | FSeg.var n :: rest, f =>
    match f.lookup n with
    | some v => (renderSegs rest f).map (fun t => v.str ++ t)
    | none => Except.error (Error.renderError n)

/-- Modelled from the spec: `FormatTemplate::render`. -/
def FormatTemplate.render (t : FormatTemplate) (fields : Fields) :
    Except Error String :=
  renderSegs t fields

/-- The Unicode White_Space property, as used by Rust's `str::trim` and by
the regex crate's `\s` class. -/
def rustIsWhitespace (c : Char) : Bool :=
  let n := c.toNat
  n == 0x09 || n == 0x0A || n == 0x0B || n == 0x0C || n == 0x0D ||
  n == 0x20 || n == 0x85 || n == 0xA0 || n == 0x1680 ||
  (0x2000 ≤ n && n ≤ 0x200A) || n == 0x2028 || n == 0x2029 ||
  n == 0x202F || n == 0x205F || n == 0x3000

/-- Rust's `str::trim`: strip Unicode whitespace from both ends. -/
def rustTrim (s : String) : String :=
  (((s.toList.dropWhile rustIsWhitespace).reverse.dropWhile
      rustIsWhitespace).reverse).asString

/-- U+FFFD, the replacement character. -/
def replacementChar : Char := Char.ofNat 0xFFFD

/-- Is the byte a UTF-8 continuation byte? -/
def contOk (b : Nat) : Bool := 0x80 ≤ b && b ≤ 0xBF

/-- Valid range of the first continuation byte of a three-byte sequence
(overlong and surrogate exclusions, per Rust's UTF-8 validation). -/
def cont3Ok (b0 b1 : Nat) : Bool :=
  if b0 == 0xE0 then 0xA0 ≤ b1 && b1 ≤ 0xBF
  else if b0 == 0xED then 0x80 ≤ b1 && b1 ≤ 0x9F
  else 0x80 ≤ b1 && b1 ≤ 0xBF

/-- Valid range of the first continuation byte of a four-byte sequence
(overlong and out-of-range exclusions, per Rust's UTF-8 validation). -/
def cont4Ok (b0 b1 : Nat) : Bool :=
  if b0 == 0xF0 then 0x90 ≤ b1 && b1 ≤ 0xBF
  else if b0 == 0xF4 then 0x80 ≤ b1 && b1 ≤ 0x8F
  else 0x80 ≤ b1 && b1 ≤ 0xBF

/-- Rust's `String::from_utf8_lossy` on a byte list: decode valid UTF-8
sequences, replacing each maximal invalid subpart by one U+FFFD.  The first
argument is fuel; every step consumes at least one byte, so fuel equal to
the byte count suffices. -/
def utf8LossyAux : Nat → List Nat → List Char
  | 0, _ => []
  | _ + 1, [] => []
  | fuel + 1, b0 :: rest =>
    if b0 < 0x80 then
      Char.ofNat b0 :: utf8LossyAux fuel rest
    else if 0xC2 ≤ b0 && b0 ≤ 0xDF then
      match rest with
      | [] => [replacementChar]
      | b1 :: rest1 =>
        if contOk b1 then
          Char.ofNat ((b0 - 0xC0) * 0x40 + (b1 - 0x80)) :: utf8LossyAux fuel rest1
        else
          replacementChar :: utf8LossyAux fuel rest
    else if 0xE0 ≤ b0 && b0 ≤ 0xEF then
      match rest with
      | [] => [replacementChar]
      | b1 :: rest1 =>
        if cont3Ok b0 b1 then
          match rest1 with
          | [] => [replacementChar]
          | b2 :: rest2 =>
            if contOk b2 then
              Char.ofNat ((b0 - 0xE0) * 0x1000 + (b1 - 0x80) * 0x40 +
                  (b2 - 0x80)) :: utf8LossyAux fuel rest2
            else
              replacementChar :: utf8LossyAux fuel rest1
        else
          replacementChar :: utf8LossyAux fuel rest
    else if 0xF0 ≤ b0 && b0 ≤ 0xF4 then
      match rest with
      | [] => [replacementChar]
      | b1 :: rest1 =>
        if cont4Ok b0 b1 then
          match rest1 with
          | [] => [replacementChar]
          | b2 :: rest2 =>
            if contOk b2 then
              match rest2 with
              | [] => [replacementChar]
              | b3 :: rest3 =>
                if contOk b3 then
                  Char.ofNat ((b0 - 0xF0) * 0x40000 + (b1 - 0x80) * 0x1000 +
                      (b2 - 0x80) * 0x40 + (b3 - 0x80)) :: utf8LossyAux fuel rest3
                else
                  replacementChar :: utf8LossyAux fuel rest2
            else
              replacementChar :: utf8LossyAux fuel rest1
        else
          replacementChar :: utf8LossyAux fuel rest
    else
      replacementChar :: utf8LossyAux fuel rest

/-- `String::from_utf8_lossy` producing a `String`. -/
def utf8Lossy (bs : List Nat) : String := (utf8LossyAux bs.length bs).asString

example : utf8Lossy [0x61, 0x62] = "ab" := rfl
example : utf8Lossy [0x61, 0xFF, 0x62] = "a" ++ "�" ++ "b" := rfl
example : utf8Lossy [0xE2, 0x82, 0xAC] = "€" := rfl
example : utf8Lossy [0xE2, 0x82] = "�" := rfl
example : rustTrim ("  a b\n ") = "a b" := rfl

/-- ASCII digit test (regex class `\d`). -/
def isAsciiDigit (c : Char) : Bool := '0' ≤ c && c ≤ '9'

/-- A compiled regular expression, modelled by its pattern source together
with its capture behaviour: `captures s` is `none` when the regex does not
match `s`, and otherwise the leftmost-first match's named-group lookup. -/
structure Regex where
  pattern : String
  captures : String → Option (String → Option String)

/-- Match the pattern `Tracking (?P<tags>.+)\n` at the start of the list:
the literal, then a non-empty greedy run of non-newline characters, then a
newline; the run is the `tags` group. -/
def trackingTagsMatchAt (l : List Char) : Option String :=
  if l.take 9 == ("Tracking ").toList then
    let after := l.drop 9
    let run := after.takeWhile (fun c => !(c == '\n'))
    if 1 ≤ run.length && (after.drop run.length).take 1 == ['\n'] then
      some run.asString
    else
      none
  else
    none

/-- Leftmost-first search for `Tracking (?P<tags>.+)\n`. -/
def trackingTagsSearch : List Char → Option String
  | [] => none
  | l@(_ :: rest) =>
    match trackingTagsMatchAt l with
    | some t => some t
    | none => trackingTagsSearch rest

/-- Capture behaviour of the compiled regex `Tracking (?P<tags>.+)\n`
(TimeWarrior's default tags regex), with the single named group `tags`. -/
def trackingTagsCaptures (s : String) : Option (String → Option String) :=
  match trackingTagsSearch s.toList with
  | some t => some (fun n => if n == "tags" then some t else none)
  | none => none

/-- Match `\d\x7b1,2\x7d:` at the head of the list, returning the remainder:
a maximal digit run of length 1 or 2 followed by a colon. -/
def twoDigitsColon (l : List Char) : Option (List Char) :=
  let ds := l.takeWhile isAsciiDigit
  if ds.length == 1 || ds.length == 2 then
    match l.drop ds.length with
    | ':' :: r => some r
    | _ => none
  else
    none

/-- Match `Tracked\s+(\d\x7b1,2\x7d:\d\x7b1,2\x7d:\d\x7b1,2\x7d)` at the
start of the list. -/
def trackedMatchAt (l : List Char) : Bool :=
  if l.take 7 == ("Tracked").toList then
    let after := l.drop 7
    let ws := after.takeWhile rustIsWhitespace
    if ws.isEmpty then
      false
    else
      match twoDigitsColon (after.drop ws.length) with
      | none => false
      | some r1 =>
        match twoDigitsColon r1 with
        | none => false
        | some r2 => 1 ≤ (r2.takeWhile isAsciiDigit).length
  else
    false

/-- Capture behaviour of the compiled regex
`(?m)Tracked\s+(\d\x7b1,2\x7d:\d\x7b1,2\x7d:\d\x7b1,2\x7d)` (SuperToggle's
default data regexes).  Its one group is unnamed, so a match exposes no
named captures. -/
def trackedCaptures (s : String) : Option (String → Option String) :=
  if (List.range s.toList.length).any
      (fun i => trackedMatchAt (s.toList.drop i)) then
    some (fun _ => none)
  else
    none

/-- Capture behaviour of the compiled regex `^\d\x7b4\x7d-\d\x7b2\x7d-\d\x7b2\x7d$`
(TimeWarrior's default status-display regex): anchored to the whole
haystack, no named groups. -/
def dateCaptures (s : String) : Option (String → Option String) :=
  let l := s.toList
  let ok := l.length == 10 && (l.take 4).all isAsciiDigit &&
    (l.drop 4).take 1 == ['-'] && ((l.drop 5).take 2).all isAsciiDigit &&
    (l.drop 7).take 1 == ['-'] && ((l.drop 8).take 2).all isAsciiDigit
  if ok then some (fun _ => none) else none

example : trackingTagsCaptures ("Tracking work stuff\nmore") = some (fun n => if n == "tags" then some ("work stuff") else none) := rfl
example : (trackingTagsCaptures ("nothing here")) = none := rfl
example : (trackedCaptures ("Tracked   1:07:33")).isSome = true := rfl
example : (trackedCaptures ("Tracked")).isSome = false := rfl
example : (trackedCaptures ("x Tracked 12:3:44 y")).isSome = true := rfl

/-- Requested next poll (`blocks::Update`); `From<Duration>` gives
`Update::Every(d)`.  Durations are abstracted to natural numbers. -/
inductive Update
  | every (d : Nat)
  deriving DecidableEq, Repr

/-- `.block_error(tag, msg)`: replace any error by `BlockError(tag, msg)`. -/
def blockErrorOf (tag msg : String) : Except Error α → Except Error α
  | Except.ok a => Except.ok a
  | Except.error _ => Except.error (Error.blockError tag msg)

/-! ### SuperToggle (src/blocks/supertoggle.rs) -/

/-- Block state of `SuperToggle`. -/
structure SuperToggle where
  id : Nat
  text : TextWidget
  command_on : String
  command_off : String
  command_current_state : String
  format_on : FormatTemplate
  format_off : FormatTemplate
  command_data_on_regex : Regex
  command_data_off_regex : Regex
  icon_on : String
  icon_off : String
  update_interval : Option Nat

/-- Deserialized `SuperToggleConfig`. -/
structure SuperToggleConfig where
  interval : Option Nat
  command_current_state : String
  command_on : String
  command_off : String
  format_on : FormatTemplate
  format_off : FormatTemplate
  command_data_on_regex : Regex
  command_data_off_regex : Regex
  icon_on : String
  icon_off : String
  text : Option String

/-- `SuperToggleConfig::default_command_on`. -/
def SuperToggleConfig.default_command_on : String := "timew continue"

/-- `SuperToggleConfig::default_command_off`. -/
def SuperToggleConfig.default_command_off : String := "timew stop"

/-- `SuperToggleConfig::default_command_current_state`. -/
def SuperToggleConfig.default_command_current_state : String := "timew"

/-- `SuperToggleConfig::default_command_status_display`. -/
def SuperToggleConfig.default_command_status_display : String := "timew day"

/-- `SuperToggleConfig::default_command_data_on_regex`:
`Regex::new(r"(?m)Tracked\s+(\d\x7b1,2\x7d:\d\x7b1,2\x7d:\d\x7b1,2\x7d)")`. -/
def SuperToggleConfig.default_command_data_on_regex : Regex :=
  { pattern := "(?m)Tracked\\s+(\\d\x7b1,2\x7d:\\d\x7b1,2\x7d:\\d\x7b1,2\x7d)"
    captures := trackedCaptures }

/-- `SuperToggleConfig::default_command_data_off_regex`: same pattern as the
on-regex. -/
def SuperToggleConfig.default_command_data_off_regex : Regex :=
  { pattern := "(?m)Tracked\\s+(\\d\x7b1,2\x7d:\\d\x7b1,2\x7d:\\d\x7b1,2\x7d)"
    captures := trackedCaptures }

/-- `SuperToggleConfig::default_icon_on`. -/
def SuperToggleConfig.default_icon_on : String := "toggle_on"

/-- `SuperToggleConfig::default_icon_off`. -/
def SuperToggleConfig.default_icon_off : String := "toggle_off"

/-- `get_output_of_command`: run `$SHELL -c command` (falling back to `sh`
when `SHELL` is unset), and on success return stdout decoded UTF-8-lossy
and trimmed.  The exit status is not inspected; only a spawn/read failure
is an error. -/
def get_output_of_command (shellVar : Option String) (exec : Exec)
    (command : String) : Except Error String :=
  match exec { program := shellVar.getD ("sh"), args := ["-c", command] } with
  | Except.ok o => Except.ok (rustTrim (utf8Lossy o.stdout))
  | Except.error e => Except.error (Error.io e.msg)

/-- `get_mapped_matches_from_string`: ignores both arguments and returns the
constant one-entry map `testing ↦ testvalue`. -/
def get_mapped_matches_from_string (totest : String) (regex : Regex) :
    Option Fields :=
  some [("testing", Value.from_string ("testvalue"))]

/-- The constant fields map produced by `get_mapped_matches_from_string`. -/
def stubFields : Fields := [("testing", Value.from_string ("testvalue"))]

/-- `SuperToggle::is_on_status`: run the state command, try the on-regex
mapping, then the off-regex mapping, else a `BlockError`. -/
def SuperToggle.is_on_status (shellVar : Option String) (exec : Exec)
    (self : SuperToggle) : Except Error (Bool × Fields) :=
  match get_output_of_command shellVar exec self.command_current_state with
  | Except.error e => Except.error e
  | Except.ok output =>
    match get_mapped_matches_from_string output self.command_data_on_regex with
    | some x => Except.ok (true, x)
    | none =>
      match get_mapped_matches_from_string output
          self.command_data_off_regex with
      | some x => Except.ok (false, x)
      | none =>
        Except.error (Error.blockError ("is_on_status")
          ("Unable to match either the command_data_on or the command_data_off regex"))

/-- `Block::update` for `SuperToggle`.  The returned block is the state
after the call (mutations before a failing step persist, matching
`&mut self`); the second component is the call's result. -/
def SuperToggle.update (shellVar : Option String) (exec : Exec)
    (theme : Theme) (self : SuperToggle) :
    SuperToggle × Except Error (Option Update) :=
  match SuperToggle.is_on_status shellVar exec self with
  | Except.error e => (self, Except.error e)
  | Except.ok (isOn, tags) =>
    match TextWidget.set_icon theme self.text
        (if isOn then self.icon_on else self.icon_off) with
    | Except.error e => (self, Except.error e)
    | Except.ok w1 =>
      match (if isOn then FormatTemplate.render self.format_on tags
             else FormatTemplate.render self.format_off tags) with
      | Except.error e => ({ self with text := w1 }, Except.error e)
      | Except.ok output =>
        let w2 := TextWidget.set_text w1 output
        let w3 := TextWidget.set_state w2 WState.idle
        ({ self with text := w3 },
         Except.ok (self.update_interval.map Update.every))

/-- `Block::click` for `SuperToggle`: re-classify via `is_on_status`, fire
the opposite-direction command, and when the runner reported no spawn/read
failure set Idle, re-run `update`, then overwrite the icon with the
negation of the pre-click state; on a runner failure set Critical and
return `Ok(())`. -/
def SuperToggle.click (shellVar : Option String) (exec : Exec)
    (theme : Theme) (self : SuperToggle) : SuperToggle × Except Error Unit :=
  match SuperToggle.is_on_status shellVar exec self with
  | Except.error e => (self, Except.error e)
  | Except.ok (isOn, _) =>
    let cmd := if isOn then self.command_off else self.command_on
    let output := blockErrorOf ("toggle") ("Failed to run toggle command")
      (get_output_of_command shellVar exec cmd)
    if output.isOk then
      let self1 := { self with text := TextWidget.set_state self.text WState.idle }
      match SuperToggle.update shellVar exec theme self1 with
      | (self2, Except.error e) => (self2, Except.error e)
      | (self2, Except.ok _) =>
        match TextWidget.set_icon theme self2.text
            (if !isOn then self2.icon_on else self2.icon_off) with
        | Except.error e => (self2, Except.error e)
        | Except.ok w => ({ self2 with text := w }, Except.ok ())
    else
      ({ self with text := TextWidget.set_state self.text WState.critical },
       Except.ok ())

/-! ### TimeWarrior (src/blocks/timewarrior.rs) -/

/-- Block state of `TimeWarrior`. -/
structure TimeWarrior where
  id : Nat
  text : TextWidget
  command_on : String
  command_off : String
  command_state : String
  command_status_display : String
  command_status_display_regex : Regex
  command_status_tags_display_regex : Regex
  icon_on : String
  icon_off : String
  update_interval : Option Nat
  toggled : Bool

/-- Deserialized `TimeWarriorConfig`. -/
structure TimeWarriorConfig where
  interval : Option Nat
  command_on : String
  command_off : String
  command_state : String
  command_status_display : String
  command_status_display_regex : Regex
  command_status_tags_display_regex : Regex
  icon_on : String
  icon_off : String
  text : Option String

/-- `TimeWarriorConfig::default_command_on`. -/
def TimeWarriorConfig.default_command_on : String := "timew continue"

/-- `TimeWarriorConfig::default_command_off`. -/
def TimeWarriorConfig.default_command_off : String := "timew stop"

/-- `TimeWarriorConfig::default_command_state`. -/
def TimeWarriorConfig.default_command_state : String := "timew"

/-- `TimeWarriorConfig::default_command_status_display`. -/
def TimeWarriorConfig.default_command_status_display : String := "timew day"

/-- `TimeWarriorConfig::default_command_status_display_regex`:
`Regex::new(r"^\d\x7b4\x7d-\d\x7b2\x7d-\d\x7b2\x7d$")`. -/
def TimeWarriorConfig.default_command_status_display_regex : Regex :=
  { pattern := "^\\d\x7b4\x7d-\\d\x7b2\x7d-\\d\x7b2\x7d$"
    captures := dateCaptures }

/-- `TimeWarriorConfig::default_command_status_tags_display_regex`:
`Regex::new(r"Tracking (?P<tags>.+)\n")`. -/
def TimeWarriorConfig.default_command_status_tags_display_regex : Regex :=
  { pattern := "Tracking (?P<tags>.+)\\n"
    captures := trackingTagsCaptures }

/-- `TimeWarriorConfig::default_icon_on`. -/
def TimeWarriorConfig.default_icon_on : String := "toggle_on"

/-- `TimeWarriorConfig::default_icon_off`. -/
def TimeWarriorConfig.default_icon_off : String := "toggle_off"

/-- The classification and widget part of `Block::update` for `TimeWarrior`,
applied to the already-captured state-command output string: classify by the
tags regex (no match means OFF with literal tags `NOT FOUND`), store
`toggled`, set the icon, set the text to the raw tags, set Idle. -/
def TimeWarrior.updateFromOutput (theme : Theme) (self : TimeWarrior)
    (output : String) : TimeWarrior × Except Error (Option Update) :=
  let tg :=
    match self.command_status_tags_display_regex.captures output with
    | none => (false, "NOT FOUND")
    | some caps => (true, (caps ("tags")).getD (""))
  let self1 := { self with toggled := tg.fst }
  match TextWidget.set_icon theme self1.text
      (if self1.toggled then self1.icon_on else self1.icon_off) with
  | Except.error e => (self1, Except.error e)
  | Except.ok w1 =>
    let w2 := TextWidget.set_text w1 tg.snd
    let w3 := TextWidget.set_state w2 WState.idle
    ({ self1 with text := w3 },
     Except.ok (self1.update_interval.map Update.every))

/-- `Block::update` for `TimeWarrior`: run `$SHELL -c command_state`; a
spawn/read failure is converted to the error's display string
(`unwrap_or_else(|e| e.to_string())`), success to trimmed lossy-decoded
stdout; then classify and refresh the widget. -/
def TimeWarrior.update (shellVar : Option String) (exec : Exec)
    (theme : Theme) (self : TimeWarrior) :
    TimeWarrior × Except Error (Option Update) :=
  let output :=
    match exec { program := shellVar.getD ("sh"),
                 args := ["-c", self.command_state] } with
    | Except.ok o => rustTrim (utf8Lossy o.stdout)
    | Except.error e => e.msg
  TimeWarrior.updateFromOutput theme self output

/-- `Block::click` for `TimeWarrior`: pick the action command from the
cached `toggled` flag, run it; a spawn/read failure becomes a
`BlockError("toggle", ...)` surfaced to the host; exit status 0 sets Idle,
flips `toggled` and sets the icon from the flipped flag; a non-zero exit
sets Critical and returns `Ok(())`. -/
def TimeWarrior.click (shellVar : Option String) (exec : Exec)
    (theme : Theme) (self : TimeWarrior) : TimeWarrior × Except Error Unit :=
  let cmd := if self.toggled then self.command_off else self.command_on
  match exec { program := shellVar.getD ("sh"), args := ["-c", cmd] } with
  | Except.error _ =>
    (self, Except.error (Error.blockError ("toggle")
      ("failed to run toggle command")))
  | Except.ok output =>
    if output.status == 0 then
      let self1 := { self with
        text := TextWidget.set_state self.text WState.idle }
      let self2 := { self1 with toggled := !self1.toggled }
      match TextWidget.set_icon theme self2.text
          (if self2.toggled then self2.icon_on else self2.icon_off) with
      | Except.error e => (self2, Except.error e)
      | Except.ok w => ({ self2 with text := w }, Except.ok ())
    else
      ({ self with text := TextWidget.set_state self.text WState.critical },
       Except.ok ())

/-! ### Concrete fixtures for counterexamples and witnesses -/

/-- A fresh widget before the first update. -/
def baseWidget : TextWidget := { icon := none, full_text := "", state := WState.idle }

/-- An icon theme resolving every icon id to itself. -/
def idTheme : Theme := fun n => some n

/-- A `TimeWarrior` block with the default configuration, cached OFF. -/
def c1block : TimeWarrior :=
  { id := 0
    text := baseWidget
    command_on := TimeWarriorConfig.default_command_on
    command_off := TimeWarriorConfig.default_command_off
    command_state := TimeWarriorConfig.default_command_state
    command_status_display := TimeWarriorConfig.default_command_status_display
    command_status_display_regex := TimeWarriorConfig.default_command_status_display_regex
    command_status_tags_display_regex := TimeWarriorConfig.default_command_status_tags_display_regex
    icon_on := TimeWarriorConfig.default_icon_on
    icon_off := TimeWarriorConfig.default_icon_off
    update_interval := none
    toggled := false }

/-- An operating system in which only `sh -c "timew continue"` can be
spawned (exiting 0, empty stdout); every other invocation, the state probe
included, fails to spawn. -/
def c1exec : Exec := fun inv =>
  if inv = { program := "sh", args := ["-c", "timew continue"] } then
    Except.ok { status := 0, stdout := [] }
  else
    Except.error { msg := "spawn failed" }

/-- A `SuperToggle` block with the default commands and regexes but
placeholder-free format templates. -/
def c2block : SuperToggle :=
  { id := 0
    text := baseWidget
    command_on := SuperToggleConfig.default_command_on
    command_off := SuperToggleConfig.default_command_off
    command_current_state := SuperToggleConfig.default_command_current_state
    format_on := [FSeg.lit ("ON")]
    format_off := [FSeg.lit ("OFF")]
    command_data_on_regex := SuperToggleConfig.default_command_data_on_regex
    command_data_off_regex := SuperToggleConfig.default_command_data_off_regex
    icon_on := SuperToggleConfig.default_icon_on
    icon_off := SuperToggleConfig.default_icon_off
    update_interval := none }

/-- An operating system in which `sh -c timew` exits 0 with empty stdout and
everything else fails to spawn. -/
def c2exec : Exec := fun inv =>
  if inv = { program := "sh", args := ["-c", "timew"] } then
    Except.ok { status := 0, stdout := [] }
  else
    Except.error { msg := "unexpected invocation" }

/-- An operating system in which the state probe `sh -c timew` succeeds with
empty stdout and the action command `sh -c "timew stop"` spawns but exits
with status 1. -/
def c3exec : Exec := fun inv =>
  if inv = { program := "sh", args := ["-c", "timew stop"] } then
    Except.ok { status := 1, stdout := [] }
  else if inv = { program := "sh", args := ["-c", "timew"] } then
    Except.ok { status := 0, stdout := [] }
  else
    Except.error { msg := "unexpected invocation" }

/-- A `TimeWarrior` block whose action command exits with status 1. -/
def c3wexec : Exec := fun inv =>
  if inv = { program := "sh", args := ["-c", "timew continue"] } then
    Except.ok { status := 1, stdout := [] }
  else
    Except.error { msg := "spawn failed" }

/-- An operating system in which every spawn fails with message `boom`. -/
def c4exec : Exec := fun _ => Except.error { msg := "boom" }

/-- A `TimeWarrior` block cached ON with pre-existing widget text. -/
def c4block : TimeWarrior :=
  { c1block with toggled := true, text := { icon := none, full_text := "old", state := WState.idle } }

/-- Modelled from the spec: the spec's default OFF format template
`TW IDLE` (a single literal, no placeholders). -/
def specDefaultFormatOff : FormatTemplate := [FSeg.lit ("TW IDLE")]

/-- An operating system in which the state probe `sh -c timew` exits 0 with
stdout `hi` (matching no regex) and everything else fails to spawn. -/
def c5exec : Exec := fun inv =>
  if inv = { program := "sh", args := ["-c", "timew"] } then
    Except.ok { status := 0, stdout := [0x68, 0x69] }
  else
    Except.error { msg := "unexpected invocation" }

/-- An operating system in which the state probe `sh -c timew` exits 0 with
stdout `Tracking work` followed by a newline. -/
def c5wexec : Exec := fun inv =>
  if inv = { program := "sh", args := ["-c", "timew"] } then
    Except.ok
      { status := 0
        stdout := [0x54, 0x72, 0x61, 0x63, 0x6B, 0x69, 0x6E, 0x67, 0x20,
                   0x77, 0x6F, 0x72, 0x6B, 0x0A, 0x78] }
  else
    Except.error { msg := "unexpected invocation" }

/-- A `SuperToggle` block like `c2block` but with a self-reschedule
interval. -/
def c6st : SuperToggle := { c2block with update_interval := some 5 }

/-- A `TimeWarrior` block like `c1block` but with a self-reschedule
interval. -/
def c6tw : TimeWarrior := { c1block with update_interval := some 7 }

/-- An operating system in which only the state probe `sh -c timew`
succeeds (exit 0, empty stdout); every other spawn fails. -/
def c3stexec : Exec := fun inv =>
  if inv = { program := "sh", args := ["-c", "timew"] } then
    Except.ok { status := 0, stdout := [] }
  else
    Except.error { msg := "spawn failed" }

/-- An operating system in which the state probe `sh -c timew` and the
OFF action `sh -c "timew stop"` both succeed (exit 0, empty stdout) and
every other spawn fails. -/
def c1stexec : Exec := fun inv =>
  if inv = { program := "sh", args := ["-c", "timew"] } then
    Except.ok { status := 0, stdout := [] }
  else if inv = { program := "sh", args := ["-c", "timew stop"] } then
    Except.ok { status := 0, stdout := [] }
  else
    Except.error { msg := "spawn failed" }

/-! ### Claim theorems -/

/-- Passing a result through `block_error` does not change whether it is
`ok`. -/
theorem blockErrorOf_isOk (tag msg : String) (x : Except Error α) :
    (blockErrorOf tag msg x).isOk = x.isOk := by
  cases x <;> rfl


/-- C1, counterexample: the claim fails on both blocks at concrete inputs.
TimeWarrior's `click` does not determine the tracker state by a fresh
`command_state` invocation: under `c1exec` the state probe cannot even be
spawned, yet with cached `toggled = false` the click runs `command_on`,
succeeds, and speculatively flips `toggled` to `true` without any re-read.
And after SuperToggle's `click` succeeds under `c1stexec`, the rendered
icon is `toggle_off`, the icon of the negation of the pre-click state,
although the fresh classification is ON (whose icon is `toggle_on`): the
icon set by the intervening fresh `update` is overwritten. -/
theorem C1_counterexample :
    (TimeWarrior.click none c1exec idTheme c1block).2 = Except.ok () ∧
    (TimeWarrior.click none c1exec idTheme c1block).1.toggled = true ∧
    c1block.toggled = false ∧
    c1exec { program := "sh", args := ["-c", c1block.command_state] } =
      Except.error { msg := "spawn failed" } ∧
    (SuperToggle.click none c1stexec idTheme c2block).2 = Except.ok () ∧
    (SuperToggle.click none c1stexec idTheme c2block).1.text.icon =
      some ("toggle_off") ∧
    SuperToggle.is_on_status none c1stexec c2block =
      Except.ok (true, stubFields) ∧
    c2block.icon_on = "toggle_on" ∧
    (("toggle_off" : String) == "toggle_on") = false :=
  ⟨rfl, rfl, rfl, rfl, rfl, rfl, rfl, rfl, by decide⟩

/-- C2, evaluation at the failing input: with the default regexes and an
empty state-command output that matches neither regex, `is_on_status`
nevertheless classifies ON with the constant stub map, instead of returning
the documented no-match `BlockError`. -/
theorem C2_code_divergence :
    SuperToggle.is_on_status none c2exec c2block =
      Except.ok (true, stubFields) ∧
    SuperToggleConfig.default_command_data_on_regex.captures ("") = none ∧
    SuperToggleConfig.default_command_data_off_regex.captures ("") = none :=
  ⟨rfl, rfl, rfl⟩

/-- C3, counterexample: `SuperToggle::click` never inspects the action
command's exit status.  Under `c3exec` the action `timew stop` exits with
status 1, yet the click reports success and leaves the widget Idle instead
of Critical. -/
theorem C3_counterexample :
    (SuperToggle.click none c3exec idTheme c2block).2 = Except.ok () ∧
    (SuperToggle.click none c3exec idTheme c2block).1.text.state = WState.idle ∧
    c3exec { program := "sh", args := ["-c", c2block.command_off] } =
      Except.ok { status := 1, stdout := [] } :=
  ⟨rfl, rfl, rfl⟩

/-- C4, counterexample: when the runner fails (`c4exec` spawns nothing),
`TimeWarrior::update` does not leave the state untouched and does not
surface a block error: it classifies the error message `boom`, flips the
cached `toggled` from `true` to `false`, overwrites the widget text `old`
with `NOT FOUND`, and returns success. -/
theorem C4_counterexample :
    (TimeWarrior.update none c4exec idTheme c4block).1.toggled = false ∧
    (TimeWarrior.update none c4exec idTheme c4block).1.text.full_text =
      "NOT FOUND" ∧
    (TimeWarrior.update none c4exec idTheme c4block).2 = Except.ok none ∧
    c4block.toggled = true ∧
    c4block.text.full_text = "old" :=
  ⟨rfl, rfl, rfl, rfl, rfl⟩

/-- C5, counterexample: on an OFF classification `TimeWarrior::update` sets
the literal widget text `NOT FOUND`; it does not render any OFF template
(the spec's default OFF template renders to `TW IDLE`). -/
theorem C5_counterexample :
    (TimeWarrior.update none c5exec idTheme c1block).1.toggled = false ∧
    (TimeWarrior.update none c5exec idTheme c1block).1.text.full_text =
      "NOT FOUND" ∧
    FormatTemplate.render specDefaultFormatOff [] = Except.ok ("TW IDLE") ∧
    (("NOT FOUND" : String) == "TW IDLE") = false := by
  refine ⟨rfl, rfl, rfl, by decide⟩

/-- C7: the command runner invokes the shell named by `SHELL` (falling back
to `sh` when unset) with the single argument pair `-c <command>`, and yields
the child's stdout decoded UTF-8-lossy and trimmed; `TimeWarrior::update`
builds its state probe the same way (with a failure collapsing to the error
message).  The last two conjuncts exercise the lossy decoding and the
trimming on concrete bytes. -/
theorem C7_runner :
    (∀ (exec : Exec) (cmd sh : String),
        get_output_of_command (some sh) exec cmd =
          match exec { program := sh, args := ["-c", cmd] } with
          | Except.ok o => Except.ok (rustTrim (utf8Lossy o.stdout))
          | Except.error e => Except.error (Error.io e.msg)) ∧
    (∀ (exec : Exec) (cmd : String),
        get_output_of_command none exec cmd =
          match exec { program := "sh", args := ["-c", cmd] } with
          | Except.ok o => Except.ok (rustTrim (utf8Lossy o.stdout))
          | Except.error e => Except.error (Error.io e.msg)) ∧
    (∀ (shellVar : Option String) (exec : Exec) (theme : Theme)
        (tw : TimeWarrior),
        TimeWarrior.update shellVar exec theme tw =
          TimeWarrior.updateFromOutput theme tw
            (match exec { program := shellVar.getD ("sh"),
                          args := ["-c", tw.command_state] } with
             | Except.ok o => rustTrim (utf8Lossy o.stdout)
             | Except.error e => e.msg)) ∧
    utf8Lossy [0x61, 0xFF, 0x62] = "a" ++ "\uFFFD" ++ "b" ∧
    rustTrim ("  tracked\n") = "tracked" :=
  ⟨fun _ _ _ => rfl, fun _ _ => rfl, fun _ _ _ _ => rfl, rfl, rfl⟩

/-- C8, counterexample: `SuperToggleConfig`'s default ON-classification
regex is not the pattern `Tracking (?P<tags>.+)\n`; it is the
`(?m)Tracked\s+(...)` pattern. -/
theorem C8_counterexample :
    (SuperToggleConfig.default_command_data_on_regex.pattern ==
      "Tracking (?P<tags>.+)\\n") = false ∧
    SuperToggleConfig.default_command_data_on_regex.pattern =
      "(?m)Tracked\\s+(\\d\x7b1,2\x7d:\\d\x7b1,2\x7d:\\d\x7b1,2\x7d)" := by
  refine ⟨by decide, rfl⟩

/-- C8 (amended): both blocks default the state command to `timew`;
TimeWarrior's default tags regex is `Tracking (?P<tags>.+)\n`, whose named
group `tags` captures (checked on a sample); SuperToggle's default ON regex
is instead `(?m)Tracked\s+(\d\x7b1,2\x7d:\d\x7b1,2\x7d:\d\x7b1,2\x7d)`, which exposes no
named group. -/
theorem C8_amended :
    TimeWarriorConfig.default_command_state = "timew" ∧
    SuperToggleConfig.default_command_current_state = "timew" ∧
    TimeWarriorConfig.default_command_status_tags_display_regex.pattern =
      "Tracking (?P<tags>.+)\\n" ∧
    (TimeWarriorConfig.default_command_status_tags_display_regex.captures
        ("Tracking work\n")).map (fun f => f ("tags")) = some (some ("work")) ∧
    SuperToggleConfig.default_command_data_on_regex.pattern =
      "(?m)Tracked\\s+(\\d\x7b1,2\x7d:\\d\x7b1,2\x7d:\\d\x7b1,2\x7d)" ∧
    (SuperToggleConfig.default_command_data_on_regex.captures
        ("Tracked 1:07:33")).map (fun f => f ("tags")) = some none :=
  ⟨rfl, rfl, rfl, rfl, rfl, rfl⟩

/-- C9: `get_mapped_matches_from_string` ignores both its arguments and
always returns the constant map `testing ↦ testvalue`, so whenever the
state command's output is captured, `is_on_status` returns ON with that
map; the OFF branch and the no-match error branch are unreachable. -/
theorem C9_stub_classifier :
    (∀ (totest : String) (re : Regex),
        get_mapped_matches_from_string totest re = some stubFields) ∧
    (∀ (shellVar : Option String) (exec : Exec) (st : SuperToggle),
        SuperToggle.is_on_status shellVar exec st =
          match get_output_of_command shellVar exec st.command_current_state with
          | Except.ok _ => Except.ok (true, stubFields)
          | Except.error e => Except.error e) := by
  refine ⟨fun _ _ => rfl, fun shellVar exec st => ?_⟩
  unfold SuperToggle.is_on_status
  cases get_output_of_command shellVar exec st.command_current_state <;> rfl

/-- C1 (amended): TimeWarrior's `click` picks the action command from the
cached `toggled` flag alone and, when that command exits 0 and the flipped
icon resolves, commits the speculative negation of the cached flag without
re-invoking `command_state`; SuperToggle's `click` re-classifies freshly
via `is_on_status` and, when the action command spawns, re-runs `update`,
but then overwrites the icon with the icon of the negation of the
pre-click state. -/
theorem C1_amended :
    (∀ (shellVar : Option String) (exec : Exec) (theme : Theme)
        (self : TimeWarrior) (o : ProcOutput) (ic : String),
        exec { program := shellVar.getD ("sh"), args := ["-c", if self.toggled then self.command_off else self.command_on] } = Except.ok o →
        o.status = 0 →
        theme (if !self.toggled then self.icon_on else self.icon_off) = some ic →
        TimeWarrior.click shellVar exec theme self =
          ({ self with toggled := !self.toggled, text := { icon := some ic, full_text := self.text.full_text, state := WState.idle } },
           Except.ok ())) ∧
    (∀ (shellVar : Option String) (exec : Exec) (theme : Theme)
        (st : SuperToggle) (isOn : Bool) (fs : Fields) (st2 : SuperToggle)
        (u : Option Update) (ic2 : String),
        SuperToggle.is_on_status shellVar exec st = Except.ok (isOn, fs) →
        (get_output_of_command shellVar exec (if isOn then st.command_off else st.command_on)).isOk = true →
        SuperToggle.update shellVar exec theme { st with text := TextWidget.set_state st.text WState.idle } = (st2, Except.ok u) →
        theme (if !isOn then st2.icon_on else st2.icon_off) = some ic2 →
        SuperToggle.click shellVar exec theme st =
          ({ st2 with text := { st2.text with icon := some ic2 } },
           Except.ok ())) := by
  constructor
  · intro shellVar exec theme self o ic hx hs hic
    simp only [TimeWarrior.click]
    rw [hx]
    simp only [Bool.not_eq_true'] at hic
    simp [hs, TextWidget.set_state, TextWidget.set_icon, hic]
  · intro sv exec theme st isOn fs st2 u ic2 h1 h2 h3 h4
    simp only [Bool.not_eq_true'] at h4
    simp only [SuperToggle.click]
    rw [h1]
    simp only [blockErrorOf_isOk, h2, eq_self_iff_true, if_true]
    rw [h3]
    simp [TextWidget.set_icon, h4]

/-- C1, witness for the amended theorem at concrete inputs: the TimeWarrior
flip under `c1exec`, and the SuperToggle icon overwrite under `c1stexec`. -/
theorem C1_amended_witness :
    TimeWarrior.click none c1exec idTheme c1block =
      ({ c1block with toggled := true, text := { icon := some ("toggle_on"), full_text := "", state := WState.idle } },
       Except.ok ()) ∧
    SuperToggle.click none c1stexec idTheme c2block =
      ({ c2block with text := { icon := some ("toggle_off"), full_text := "ON", state := WState.idle } },
       Except.ok ()) :=
  ⟨C1_amended.1 none c1exec idTheme c1block ({ status := 0, stdout := [] })
      ("toggle_on") rfl rfl rfl,
   C1_amended.2 none c1stexec idTheme c2block true stubFields
      ({ c2block with text := { icon := some ("toggle_on"), full_text := "ON", state := WState.idle } })
      none ("toggle_off") rfl rfl rfl rfl⟩

/-- C3 (amended): `TimeWarrior::click` treats a non-zero exit of the action
command as failure — Critical widget, no flip of `toggled`, normal return —
while `SuperToggle::click` never inspects the exit status: it goes Critical
(still returning normally) only when the action command cannot be spawned
or read. -/
theorem C3_amended :
    (∀ (shellVar : Option String) (exec : Exec) (theme : Theme)
        (tw : TimeWarrior) (o : ProcOutput),
        exec { program := shellVar.getD ("sh"), args := ["-c", if tw.toggled then tw.command_off else tw.command_on] } = Except.ok o →
        o.status ≠ 0 →
        TimeWarrior.click shellVar exec theme tw =
          ({ tw with text := TextWidget.set_state tw.text WState.critical },
           Except.ok ())) ∧
    (∀ (shellVar : Option String) (exec : Exec) (theme : Theme)
        (st : SuperToggle) (isOn : Bool) (fs : Fields) (e : IoErr),
        SuperToggle.is_on_status shellVar exec st = Except.ok (isOn, fs) →
        exec { program := shellVar.getD ("sh"), args := ["-c", if isOn then st.command_off else st.command_on] } = Except.error e →
        SuperToggle.click shellVar exec theme st =
          ({ st with text := TextWidget.set_state st.text WState.critical },
           Except.ok ())) := by
  constructor
  · intro sv exec theme tw o hx hs
    simp only [TimeWarrior.click]
    rw [hx]
    simp [hs]
  · intro sv exec theme st isOn fs e h1 h2
    simp only [SuperToggle.click]
    rw [h1]
    simp [get_output_of_command, h2, blockErrorOf, Except.isOk, Except.toBool]

/-- C3, witness for the amended theorem at concrete inputs: a TimeWarrior
click whose action exits 1 goes Critical without flipping, and a
SuperToggle click whose action cannot spawn goes Critical returning
normally. -/
theorem C3_amended_witness :
    TimeWarrior.click none c3wexec idTheme c1block =
      ({ c1block with text := TextWidget.set_state c1block.text WState.critical },
       Except.ok ()) ∧
    SuperToggle.click none c3stexec idTheme c2block =
      ({ c2block with text := TextWidget.set_state c2block.text WState.critical },
       Except.ok ()) :=
  ⟨C3_amended.1 none c3wexec idTheme c1block ({ status := 1, stdout := [] })
      rfl (by decide),
   C3_amended.2 none c3stexec idTheme c2block true stubFields
      ({ msg := "spawn failed" }) rfl rfl⟩

/-- C4 (amended): when the runner or classifier fails, `SuperToggle::update`
leaves the block untouched and surfaces the error to the host, while
`TimeWarrior::update` swallows a runner failure, classifying the error's
message string exactly as it would classify tracker output. -/
theorem C4_amended :
    (∀ (shellVar : Option String) (exec : Exec) (theme : Theme)
        (st : SuperToggle) (e : Error),
        SuperToggle.is_on_status shellVar exec st = Except.error e →
        SuperToggle.update shellVar exec theme st = (st, Except.error e)) ∧
    (∀ (shellVar : Option String) (exec : Exec) (theme : Theme)
        (tw : TimeWarrior) (e : IoErr),
        exec { program := shellVar.getD ("sh"), args := ["-c", tw.command_state] } = Except.error e →
        TimeWarrior.update shellVar exec theme tw =
          TimeWarrior.updateFromOutput theme tw e.msg) := by
  constructor
  · intro sv exec theme st e h
    simp only [SuperToggle.update]
    rw [h]
  · intro sv exec theme tw e h
    simp only [TimeWarrior.update]
    rw [h]

/-- C4, witness for the amended theorem at concrete inputs. -/
theorem C4_amended_witness :
    SuperToggle.update none c4exec idTheme c2block =
      (c2block, Except.error (Error.io ("boom"))) ∧
    TimeWarrior.update none c4exec idTheme c4block =
      TimeWarrior.updateFromOutput idTheme c4block ("boom") :=
  ⟨C4_amended.1 none c4exec idTheme c2block (Error.io ("boom")) rfl,
   C4_amended.2 none c4exec idTheme c4block ({ msg := "boom" }) rfl⟩

/-- C5 (amended): when classification succeeds, `SuperToggle::update`
renders `format_on`/`format_off` over the extracted fields, sets
`icon_on`/`icon_off`, and sets the widget Idle, exactly as claimed; but
`TimeWarrior::update` only matches the icon/Idle half of the claim — its
widget text is the raw captured `tags` group (or the literal `NOT FOUND`),
not a template rendering. -/
theorem C5_amended :
    (∀ (shellVar : Option String) (exec : Exec) (theme : Theme)
        (st : SuperToggle) (isOn : Bool) (fs : Fields) (ic out : String),
        SuperToggle.is_on_status shellVar exec st = Except.ok (isOn, fs) →
        theme (if isOn then st.icon_on else st.icon_off) = some ic →
        (if isOn then FormatTemplate.render st.format_on fs
         else FormatTemplate.render st.format_off fs) = Except.ok out →
        SuperToggle.update shellVar exec theme st =
          ({ st with text := { icon := some ic, full_text := out, state := WState.idle } },
           Except.ok (st.update_interval.map Update.every))) ∧
    (∀ (theme : Theme) (tw : TimeWarrior) (out ic : String)
        (capsF : String → Option String),
        tw.command_status_tags_display_regex.captures out = some capsF →
        theme tw.icon_on = some ic →
        TimeWarrior.updateFromOutput theme tw out =
          ({ tw with toggled := true, text := { icon := some ic, full_text := (capsF ("tags")).getD (""), state := WState.idle } },
           Except.ok (tw.update_interval.map Update.every))) := by
  constructor
  · intro sv exec theme st isOn fs ic out h1 h2 h3
    simp only [SuperToggle.update]
    rw [h1]
    simp [TextWidget.set_icon, TextWidget.set_text, TextWidget.set_state, h2, h3]
  · intro theme tw out ic capsF h1 h2
    simp only [TimeWarrior.updateFromOutput]
    rw [h1]
    simp [TextWidget.set_icon, TextWidget.set_text, TextWidget.set_state, h2]

/-- C5, witness for the amended theorem at concrete inputs. -/
theorem C5_amended_witness :
    SuperToggle.update none c2exec idTheme c2block =
      ({ c2block with text := { icon := some ("toggle_on"), full_text := "ON", state := WState.idle } },
       Except.ok none) ∧
    TimeWarrior.updateFromOutput idTheme c1block ("Tracking work\nx") =
      ({ c1block with toggled := true, text := { icon := some ("toggle_on"), full_text := "work", state := WState.idle } },
       Except.ok none) :=
  ⟨C5_amended.1 none c2exec idTheme c2block true stubFields ("toggle_on")
      ("ON") rfl rfl rfl,
   C5_amended.2 idTheme c1block ("Tracking work\nx") ("toggle_on")
      (fun n => if n == "tags" then some ("work") else none) rfl rfl⟩

/-- C6: whenever `update` succeeds, its returned reschedule request is
exactly the configured `update_interval` — `Update::Every` of the very same
duration when one is configured, and no request when none is — for both
blocks. -/
theorem C6_update_interval :
    (∀ (shellVar : Option String) (exec : Exec) (theme : Theme)
        (st : SuperToggle) (r : Option Update),
        (SuperToggle.update shellVar exec theme st).2 = Except.ok r →
        r = st.update_interval.map Update.every) ∧
    (∀ (shellVar : Option String) (exec : Exec) (theme : Theme)
        (tw : TimeWarrior) (r : Option Update),
        (TimeWarrior.update shellVar exec theme tw).2 = Except.ok r →
        r = tw.update_interval.map Update.every) := by
  constructor
  · intro sv exec theme st r h
    unfold SuperToggle.update at h
    split at h
    · simp at h
    · split at h
      · simp at h
      · split at h
        · simp at h
        · simp at h
          exact h.symm
  · intro sv exec theme tw r h
    unfold TimeWarrior.update TimeWarrior.updateFromOutput at h
    split at h
    all_goals dsimp only [] at h
    · split at h
      · simp at h
      · simp at h
        exact h.symm
    · split at h
      · simp at h
      · simp at h
        exact h.symm

/-- C6, witness: at concrete inputs with a configured interval the
successful update returns exactly that interval. -/
theorem C6_update_interval_witness :
    (some (Update.every 5) : Option Update) =
      c6st.update_interval.map Update.every ∧
    (some (Update.every 7) : Option Update) =
      c6tw.update_interval.map Update.every :=
  ⟨C6_update_interval.1 none c2exec idTheme c6st (some (Update.every 5)) rfl,
   C6_update_interval.2 none c5exec idTheme c6tw (some (Update.every 7)) rfl⟩

/-- C10: `TimeWarrior::update` never surfaces a runner failure — the
error's message string is classified exactly like tracker output — and an
output matching no regex is classified OFF with the literal widget text
`NOT FOUND`. -/
theorem C10_error_swallowing :
    (∀ (shellVar : Option String) (exec : Exec) (theme : Theme)
        (tw : TimeWarrior) (e : IoErr),
        exec { program := shellVar.getD ("sh"), args := ["-c", tw.command_state] } = Except.error e →
        TimeWarrior.update shellVar exec theme tw =
          TimeWarrior.updateFromOutput theme tw e.msg) ∧
    (∀ (theme : Theme) (tw : TimeWarrior) (out ic : String),
        tw.command_status_tags_display_regex.captures out = none →
        theme tw.icon_off = some ic →
        TimeWarrior.updateFromOutput theme tw out =
          ({ tw with toggled := false, text := { icon := some ic, full_text := "NOT FOUND", state := WState.idle } },
           Except.ok (tw.update_interval.map Update.every))) := by
  constructor
  · intro sv exec theme tw e h
    simp only [TimeWarrior.update]
    rw [h]
  · intro theme tw out ic h1 h2
    simp only [TimeWarrior.updateFromOutput]
    rw [h1]
    simp [TextWidget.set_icon, TextWidget.set_text, TextWidget.set_state, h2]

/-- C10, witness at concrete inputs: a failed spawn's message `boom` is
classified as output, yielding OFF and `NOT FOUND`. -/
theorem C10_witness :
    TimeWarrior.update none c4exec idTheme c4block =
      TimeWarrior.updateFromOutput idTheme c4block ("boom") ∧
    TimeWarrior.updateFromOutput idTheme c4block ("boom") =
      ({ c4block with toggled := false, text := { icon := some ("toggle_off"), full_text := "NOT FOUND", state := WState.idle } },
       Except.ok none) :=
  ⟨C10_error_swallowing.1 none c4exec idTheme c4block ({ msg := "boom" }) rfl,
   C10_error_swallowing.2 idTheme c4block ("boom") ("toggle_off") rfl rfl⟩
